import Mathlib

/-!
Verification of the in-process generic-metadata builder backend and its
validation harness.

Shallow embedding of `stdlib/public/runtime/GenericMetadataBuilder.cpp`:
the `InProcessReaderWriter` backend (buffers, bounds-checked writable data,
symbol lookup) and the `validateExternalGenericMetadataBuilder` harness
(value-witness-table comparison, byte comparison, verbosity-gated logging,
fatal mismatch reporting).

Machine pointers (`uintptr_t`) are modelled as natural numbers below
`ptrModulus = 2 ^ 64`, with unsigned wraparound subtraction made explicit.
Memory in one address space is a total map from addresses to stored cells.
Results of the external metadata-construction engine (extra-data-size
computation, allocation, two-phase initialization, the structured dumper),
which live in headers outside this translation unit, enter the model as
explicit inputs of the validation environment; the harness logic itself is
translated branch by branch from the source. The platform services `dlsym`
and `dladdr` are likewise oracles supplied as inputs.
-/

namespace GenericMetadataBuilderSpec

/-- The modulus of `uintptr_t` arithmetic on the 64-bit targets this
runtime supports: 2 ^ 64 written as a literal. -/
def ptrModulus : Nat := 18446744073709551616

/-- Memory of one address space: a total map from addresses to stored
values (one cell per addressable location). -/
def Mem : Type := Nat → Nat

/-- Store `v` at address `a`, leaving every other address unchanged. -/
def memUpdate (m : Mem) (a v : Nat) : Mem :=
  fun x => if x = a then v else m x

/-- Model of `InProcessReaderWriter::Buffer`: a non-owning view identified solely by
the address of its underlying storage (`T *ptr` in the source, with the
element type erased in this model). -/
structure Buffer where
  ptr : Nat
deriving DecidableEq, Repr

/-- Model of `Buffer::getAddress`: the address value of the buffer. -/
def Buffer.getAddress (b : Buffer) : Nat := b.ptr

/-- Model of `Buffer::isNull`: true iff the underlying address is zero. -/
def Buffer.isNull (b : Buffer) : Bool := b.ptr == 0

/-- The absolute-pointer `Buffer::resolvePointer` overload: read the stored
pointer value at address `p` and wrap it in a buffer (`*ptr` in the
source). -/
def resolvePointer (m : Mem) (p : Nat) : Buffer :=
  ⟨m p⟩

/-- The in-process `Buffer::resolveFunctionPointer` overload for plain
function pointers: read the stored code address at `p` and wrap it. -/
def resolveFunctionPointer (m : Mem) (p : Nat) : Buffer :=
  ⟨m p⟩

/-- Model of `InProcessReaderWriter::WritableData`: a mutable buffer (base address)
together with the byte length of the region it may write. -/
structure WritableData where
  ptr : Nat
  size : Nat
deriving DecidableEq, Repr

/-- Model of `WritableData::checkPtr`: the source asserts
`(uintptr_t)toCheck - (uintptr_t)this->ptr < size`; the subtraction is
unsigned and wraps modulo `2 ^ 64`. -/
def WritableData.checkPtr (d : WritableData) (toCheck : Nat) : Bool :=
  decide ((toCheck + ptrModulus - d.ptr) % ptrModulus < d.size)

/-- Model of `WritableData::writePointer` (all pointer-store overloads coincide once
C++ types are erased: each calls `checkPtr(to)` and then stores
`target.ptr` through `to`). The debug assertion is modelled as `none` on
contract violation; an in-bounds write returns the updated memory. -/
def WritableData.writePointer (d : WritableData) (m : Mem) (toAddr : Nat)
    (target : Buffer) : Option Mem :=
  if d.checkPtr toAddr then some (memUpdate m toAddr target.ptr) else none

/-- Model of `WritableData::writeFunctionPointer`: `checkPtr(to)` then store the
target code address through `to`. -/
def WritableData.writeFunctionPointer (d : WritableData) (m : Mem)
    (toAddr : Nat) (target : Buffer) : Option Mem :=
  if d.checkPtr toAddr then some (memUpdate m toAddr target.ptr) else none

/-! Section: symbol lookup.

`getSymbolInfo` wraps `dladdr` and `getSymbolPointer` wraps `dlsym`; both
platform services are supplied as oracle inputs (`useDladdr` is the
`USE_DLADDR` build condition). -/

/-- Model of `InProcessReaderWriter::SymbolInfo`. -/
structure SymbolInfo where
  symbolName : String
  libraryName : String
  pointerOffset : Nat
deriving DecidableEq, Repr

/-- The fields of a successful `dladdr` result that the source consults:
`dli_fname` and `dli_sname` may each be null, `dli_fbase` is the load
address of the containing image. -/
structure DlInfo where
  dliFname : Option String
  dliSname : Option String
  dliFbase : Nat
deriving DecidableEq, Repr

/-- Model of the `strrchr(libName, slash)` trimming: the component of `s` after its
last slash, or `s` itself when it contains none (computed by a structural
left fold that restarts at each slash). -/
def libraryBasename (s : String) : String :=
  ⟨s.data.foldl (fun acc c => if c = '/' then [] else acc ++ [c]) []⟩

/-- Model of `InProcessReaderWriter::getSymbolInfo`: without `dladdr`, or when
`dladdr` returns 0, every field is the `<unknown>` / 0 sentinel; on
success a null `dli_fname` or `dli_sname` is individually replaced by
`<unknown>`, the library name keeps only its last path component, and the
offset is the buffer address minus the image base (unsigned). -/
def getSymbolInfo (useDladdr : Bool) (dladdrResult : Option DlInfo)
    (bufferAddr : Nat) : SymbolInfo :=
  if useDladdr then
    match dladdrResult with
    | none => ⟨"<unknown>", "<unknown>", 0⟩
    | some info =>
      let fname := info.dliFname.getD "<unknown>"
      let sname := info.dliSname.getD "<unknown>"
      ⟨sname, libraryBasename fname,
        (bufferAddr + ptrModulus - info.dliFbase) % ptrModulus⟩
  else ⟨"<unknown>", "<unknown>", 0⟩

/-- Model of `InProcessReaderWriter::getSymbolPointer`: `dlsym` yields an address
(`0` models the null result); a null result is an error naming the symbol,
a missing platform facility is the unimplemented-platform error, and a
non-null result is returned as a buffer. -/
def getSymbolPointer (useDladdr : Bool) (name : String)
    (dlsymResult : Nat) : Except String Buffer :=
  if useDladdr then
    if dlsymResult = 0 then
      .error ("dlsym could not find symbol " ++ name)
    else .ok ⟨dlsymResult⟩
  else .error "getSymbolPointer is not implemented on this platform"

/-! Section: value-witness-table comparison (`equalVWTs`).

The comparison logic is translated from `equalVWTs` in the source. The
inventory of table entries comes from `swift/ABI/ValueWitness.def`, which
is not part of the visible sources; its required and enum-only entries are
modelled from the spec's description of the value-operations table (copy /
move / destroy / single-payload operations, size, stride, flags, extra
inhabitants; enum tag operations for enum-shaped values). -/

/-- Model of `ValueWitnessFlags`: compared through `unwrapVWTField`, which extracts
the opaque `uint32_t` value. -/
structure ValueWitnessFlags where
  opaqueValue : Nat
deriving DecidableEq, Repr

/-- Model of `ValueWitnessFlags::getOpaqueValue`. -/
def ValueWitnessFlags.getOpaqueValue (f : ValueWitnessFlags) : Nat :=
  f.opaqueValue

/-- Modelled from the spec: the enum-specific extended entries of an
enum-shaped value-operations table (`WANT_ONLY_ENUM_VALUE_WITNESSES` block
of `swift/ABI/ValueWitness.def`, not under the visible sources). -/
structure EnumValueWitnesses where
  getEnumTag : Nat
  destructiveProjectEnumData : Nat
  destructiveInjectEnumTag : Nat
deriving DecidableEq, Repr

/-- Modelled from the spec: a value-operations table. The required entries
(`WANT_ONLY_REQUIRED_VALUE_WITNESSES` block of
`swift/ABI/ValueWitness.def`) are the eight required function witnesses
and the data witnesses size, stride, flags and extra-inhabitant count;
`enumWitnesses` is `some` exactly when the table is the enum-shaped
`EnumValueWitnessTable` subclass (the `dyn_cast<EnumValueWitnessTable>`
of the source succeeds). -/
structure ValueWitnessTable where
  initializeBufferWithCopyOfBuffer : Nat
  destroy : Nat
  initializeWithCopy : Nat
  assignWithCopy : Nat
  initializeWithTake : Nat
  assignWithTake : Nat
  getEnumTagSinglePayload : Nat
  storeEnumTagSinglePayload : Nat
  size : Nat
  stride : Nat
  flags : ValueWitnessFlags
  extraInhabitantCount : Nat
  enumWitnesses : Option EnumValueWitnesses
deriving DecidableEq, Repr

/-- Model of `equalVWTs`: compare the required entries one by one with early
`return false`, then dispatch on whether each table is enum-shaped; only
when both are does it compare the enum-specific extended entries. -/
def equalVWTs (a b : ValueWitnessTable) : Bool :=
  if a.initializeBufferWithCopyOfBuffer ≠ b.initializeBufferWithCopyOfBuffer
    then false
  else if a.destroy ≠ b.destroy then false
  else if a.initializeWithCopy ≠ b.initializeWithCopy then false
  else if a.assignWithCopy ≠ b.assignWithCopy then false
  else if a.initializeWithTake ≠ b.initializeWithTake then false
  else if a.assignWithTake ≠ b.assignWithTake then false
  else if a.getEnumTagSinglePayload ≠ b.getEnumTagSinglePayload then false
  else if a.storeEnumTagSinglePayload ≠ b.storeEnumTagSinglePayload then
    false
  else if a.size ≠ b.size then false
  else if a.stride ≠ b.stride then false
  else if a.flags.getOpaqueValue ≠ b.flags.getOpaqueValue then false
  else if a.extraInhabitantCount ≠ b.extraInhabitantCount then false
  else
    match a.enumWitnesses, b.enumWitnesses with
    | none, none => true
    | some enumA, some enumB =>
      if enumA.getEnumTag ≠ enumB.getEnumTag then false
      else if enumA.destructiveProjectEnumData ≠
          enumB.destructiveProjectEnumData then false
      else if enumA.destructiveInjectEnumTag ≠
          enumB.destructiveInjectEnumTag then false
      else true
    | _, _ => false

/-! Section: the validation harness.

`validateExternalGenericMetadataBuilder` drives the external construction
engine and compares its result against the production-path metadata. The
engine calls (`extraDataSize`, `buildGenericValueMetadata`,
`initializeGenericMetadata`, the `Dumper`) are declared in headers outside
this translation unit; their outcomes are inputs of `ValidationEnv`. The
observable behaviour of one harness run is collected in
`ValidationResult`: the diagnostic lines written to stderr, whether
`swift::fatalError` terminated the process, whether the allocation entry
point was invoked, and whether the comparison stage was reached. -/

/-- Model of `validationLog`: the gated diagnostic sink. A line is suppressed
exactly when it is not a validation failure and the live verbosity setting
(`SWIFT_DEBUG_VALIDATE_EXTERNAL_GENERIC_METADATA_BUILDER`) is below 2;
emitted lines carry the `GenericMetadataBuilder validation: ` prefix. -/
def validationLog (verbosity : Nat) (isValidationFailure : Bool)
    (msg : String) : List String :=
  if !isValidationFailure && verbosity < 2 then []
  else ["GenericMetadataBuilder validation: " ++ msg]

/-- Value of `sizeof(ValueMetadata)`: the fixed value-metadata header, two
pointer-sized fields (kind and descriptor) on the 64-bit targets
modelled here. -/
def sizeofValueMetadata : Nat := 16

/-- The `memcmp(original, newMetadata, totalSize) == 0` byte check: true
iff the `n` cells starting at `a` and at `b` are pairwise equal. -/
def memcmpEqBytes (m : Mem) (a b n : Nat) : Bool :=
  (List.range n).all fun i => m (a + i) == m (b + i)

/-- Outcome of `initializeGenericValueMetadata`: whether it returned true,
and the diagnostic lines it wrote. -/
structure InitOutcome where
  success : Bool
  output : List String
deriving DecidableEq, Repr

/-- Model of `initializeGenericValueMetadata`: runs the engine's two-phase
initializer; on error it writes the failure message directly to stderr
with `fprintf` (not through the gated `validationLog`) and returns false,
on success it returns true silently. -/
def initializeGenericValueMetadata (engineResult : Except String Unit) :
    InitOutcome :=
  match engineResult with
  | .ok _ => ⟨true, []⟩
  | .error e =>
    ⟨false, ["swift_initializeGenericValueMetadata failed: " ++ e]⟩

/-- Environment of one `validateExternalGenericMetadataBuilder` call:
the descriptor's classification, the outcomes of the external engine
calls, the two value-operations tables, the address-space contents and the
two record addresses, the dumper's behaviour on each record (lines
printed, optional error), the type name, and the live verbosity
setting. -/
structure ValidationEnv where
  verbosity : Nat
  isValueTypeDescriptor : Bool
  isGeneric : Bool
  extraDataSize : Except String Nat
  allocation : Except String Nat
  initResult : Except String Unit
  origVWT : ValueWitnessTable
  newVWT : ValueWitnessTable
  mem : Mem
  originalAddr : Nat
  dumpOriginal : List String × Option String
  dumpNew : List String × Option String
  typeName : String

/-- Observable behaviour of one harness run: diagnostic lines in emission
order, whether `swift::fatalError` was reached, whether the allocation
entry point was invoked, and whether the comparison stage ran. -/
structure ValidationResult where
  output : List String
  fatal : Bool
  allocated : Bool
  compared : Bool
deriving DecidableEq, Repr

/-- Lines produced by `dumpMetadata` on one record: the dumper's own
output, followed by the harness's error line when the dumper failed. -/
def dumpEmit (verbosity : Nat) (which : String)
    (d : List String × Option String) : List String :=
  d.1 ++ (match d.2 with
    | none => []
    | some e =>
      validationLog verbosity true
        ("error dumping " ++ which ++ " metadata: " ++ e))

/-- Model of `validateExternalGenericMetadataBuilder`, translated branch by branch:
only generic value-type descriptors are processed; the three engine steps
abort the validation on error; otherwise the value-operations tables and
`sizeof(ValueMetadata) + extraSize` bytes of the two records are compared,
with a dump of both records and `swift::fatalError` on any mismatch, and a
gated success trace naming the type when both checks pass. -/
def validateExternalGenericMetadataBuilder (env : ValidationEnv) :
    ValidationResult :=
  if env.isValueTypeDescriptor && env.isGeneric then
    match env.extraDataSize with
    | .error e =>
      ⟨validationLog env.verbosity false
          ("error getting extra data size: " ++ e),
        false, false, false⟩
    | .ok extraSize =>
      match env.allocation with
      | .error e =>
        ⟨validationLog env.verbosity false
            ("error allocating metadata: " ++ e),
          false, true, false⟩
      | .ok newMetadataAddr =>
        let initOutcome := initializeGenericValueMetadata env.initResult
        if !initOutcome.success then
          ⟨initOutcome.output, false, true, false⟩
        else
          let vwtsEqual := equalVWTs env.origVWT env.newVWT
          let vwtOut :=
            if !vwtsEqual then
              validationLog env.verbosity true "VWTs do not match"
            else []
          let totalSize := sizeofValueMetadata + extraSize
          let bytesEqual :=
            memcmpEqBytes env.mem env.originalAddr newMetadataAddr totalSize
          let bytesOut :=
            if !bytesEqual then
              validationLog env.verbosity true "Metadatas do not match"
            else []
          if !(vwtsEqual && bytesEqual) then
            ⟨initOutcome.output ++ vwtOut ++ bytesOut ++
                validationLog env.verbosity true
                  "Error! Mismatch between new/old metadata builders!" ++
                validationLog env.verbosity true "Original metadata:" ++
                dumpEmit env.verbosity "original" env.dumpOriginal ++
                validationLog env.verbosity true "New metadata builder:" ++
                dumpEmit env.verbosity "new" env.dumpNew ++
                ["Fatal error: mismatched metadata."],
              true, true, true⟩
          else
            ⟨initOutcome.output ++
                validationLog env.verbosity false
                  ("Validated generic metadata builder on " ++ env.typeName),
              false, true, true⟩
  else ⟨[], false, false, false⟩

/-! Section: concrete sample values used by the witnesses. -/

/-- A concrete non-enum value-operations table. -/
def sampleVWT : ValueWitnessTable :=
  ⟨10, 11, 12, 13, 14, 15, 16, 17, 8, 8, ⟨2097152⟩, 0, none⟩

/-- The sample table with one required function witness changed. -/
def sampleVWTCorrupt : ValueWitnessTable :=
  { sampleVWT with destroy := 99 }

/-- A concrete environment that reaches the comparison stage and passes
both checks: both records read the same bytes everywhere. -/
def sampleEnv : ValidationEnv where
  verbosity := 0
  isValueTypeDescriptor := true
  isGeneric := true
  extraDataSize := .ok 8
  allocation := .ok 512
  initResult := .ok ()
  origVWT := sampleVWT
  newVWT := sampleVWT
  mem := fun _ => 170
  originalAddr := 256
  dumpOriginal := (["kind 513"], none)
  dumpNew := (["kind 513"], none)
  typeName := "Pair"

/-! Section: theorems. -/

/-- The wraparound bounds check accepts exactly the addresses in
`[base, base + size)`, provided the region does not wrap around the top of
the address space and the checked address is a machine pointer. Shared by
the bounds-safety and round-trip results. -/
theorem checkPtr_eq_true_iff (d : WritableData) (t : Nat)
    (hd : d.ptr + d.size ≤ ptrModulus) (ht : t < ptrModulus) :
    d.checkPtr t = true ↔ d.ptr ≤ t ∧ t < d.ptr + d.size := by
  simp only [WritableData.checkPtr, decide_eq_true_eq, ptrModulus] at *
  omega

/-- C3. Every `WritableData` write operation (the `writePointer`
overloads and `writeFunctionPointer`) bounds-checks the target field
address `t` before the store: the check passes exactly when
`base ≤ t < base + size`; a write whose target is exactly `base + size` is
a contract violation; and an in-bounds write stores the target value at
`t`. -/
theorem writableData_write_bounds (d : WritableData) (m : Mem) (t : Nat)
    (target : Buffer) (hd : d.ptr + d.size ≤ ptrModulus)
    (ht : t < ptrModulus) :
    (d.checkPtr t = true ↔ d.ptr ≤ t ∧ t < d.ptr + d.size) ∧
    (t = d.ptr + d.size →
      d.writePointer m t target = none ∧
      d.writeFunctionPointer m t target = none) ∧
    (∀ m2, d.writePointer m t target = some m2 ∨
        d.writeFunctionPointer m t target = some m2 →
      (d.ptr ≤ t ∧ t < d.ptr + d.size) ∧ m2 t = target.ptr) := by
  have hiff := checkPtr_eq_true_iff d t hd ht
  refine ⟨hiff, ?_, ?_⟩
  · intro hend
    have hfail : d.checkPtr t = false := by
      rcases h : d.checkPtr t with _ | _
      · rfl
      · exact absurd (hiff.mp h) (by omega)
    constructor <;>
      simp [WritableData.writePointer, WritableData.writeFunctionPointer,
        hfail]
  · intro m2 hw
    rcases h : d.checkPtr t with _ | _
    · exfalso
      rcases hw with hw | hw <;>
        simp [WritableData.writePointer, WritableData.writeFunctionPointer,
          h] at hw
    · refine ⟨hiff.mp h, ?_⟩
      rcases hw with hw | hw <;>
        · simp [WritableData.writePointer, WritableData.writeFunctionPointer,
            h] at hw
          simp [← hw, memUpdate]

/-- Witness for C3 at a concrete region `[4096, 4112)`: the end address
4112 is rejected and the in-bounds write at 4100 stores the target. -/
theorem writableData_write_bounds_witness :
    ((WritableData.mk 4096 16).checkPtr 4100 = true ↔
      4096 ≤ 4100 ∧ 4100 < 4096 + 16) ∧
    ((4112 : Nat) = 4096 + 16 →
      (WritableData.mk 4096 16).writePointer (fun _ => 0) 4112 ⟨7⟩ = none ∧
      (WritableData.mk 4096 16).writeFunctionPointer (fun _ => 0) 4112 ⟨7⟩ =
        none) ∧
    (∀ m2, (WritableData.mk 4096 16).writePointer (fun _ => 0) 4112 ⟨7⟩ =
        some m2 ∨
        (WritableData.mk 4096 16).writeFunctionPointer (fun _ => 0) 4112 ⟨7⟩ =
          some m2 →
      (4096 ≤ 4112 ∧ 4112 < 4096 + 16) ∧ m2 4112 = (7 : Nat)) := by
  refine ⟨(writableData_write_bounds ⟨4096, 16⟩ (fun _ => 0) 4100 ⟨7⟩
    (by decide) (by decide)).1, ?_, ?_⟩
  · exact (writableData_write_bounds ⟨4096, 16⟩ (fun _ => 0) 4112 ⟨7⟩
      (by decide) (by decide)).2.1
  · exact (writableData_write_bounds ⟨4096, 16⟩ (fun _ => 0) 4112 ⟨7⟩
      (by decide) (by decide)).2.2

/-- C4. In-process round trip: for every writable region, memory and
in-bounds field, writing a target through `writePointer` and resolving that
field through the absolute-pointer `resolvePointer` yields a buffer whose
address equals the original target's address; likewise for
`writeFunctionPointer` followed by `resolveFunctionPointer`. -/
theorem write_resolve_roundtrip (d : WritableData) (m : Mem) (t : Nat)
    (target : Buffer) (hd : d.ptr + d.size ≤ ptrModulus)
    (hlo : d.ptr ≤ t) (hhi : t < d.ptr + d.size) :
    (∃ m2, d.writePointer m t target = some m2 ∧
      (resolvePointer m2 t).getAddress = target.getAddress) ∧
    (∃ m2, d.writeFunctionPointer m t target = some m2 ∧
      (resolveFunctionPointer m2 t).getAddress = target.getAddress) := by
  have ht : t < ptrModulus := lt_of_lt_of_le hhi hd
  have hchk : d.checkPtr t = true :=
    (checkPtr_eq_true_iff d t hd ht).mpr ⟨hlo, hhi⟩
  constructor
  · refine ⟨memUpdate m t target.ptr, ?_, ?_⟩
    · simp [WritableData.writePointer, hchk]
    · simp [resolvePointer, memUpdate, Buffer.getAddress]
  · refine ⟨memUpdate m t target.ptr, ?_, ?_⟩
    · simp [WritableData.writeFunctionPointer, hchk]
    · simp [resolveFunctionPointer, memUpdate, Buffer.getAddress]

/-- Witness for C4 at a concrete region, field address and target. -/
theorem write_resolve_roundtrip_witness :
    (∃ m2, (WritableData.mk 4096 16).writePointer (fun _ => 0) 4104 ⟨90210⟩ =
        some m2 ∧
      (resolvePointer m2 4104).getAddress = Buffer.getAddress ⟨90210⟩) ∧
    (∃ m2,
      (WritableData.mk 4096 16).writeFunctionPointer (fun _ => 0) 4104
          ⟨90210⟩ = some m2 ∧
      (resolveFunctionPointer m2 4104).getAddress =
        Buffer.getAddress ⟨90210⟩) :=
  write_resolve_roundtrip ⟨4096, 16⟩ (fun _ => 0) 4104 ⟨90210⟩ (by decide)
    (by decide) (by decide)

/-- C2. The comparison `equalVWTs` returns true iff every required entry of the two
tables is pairwise equal, the tables agree on being enum-shaped, and, when
both are enum-shaped, every enum-specific extended entry is pairwise equal
(extended entries are compared only under the both-enum guard). -/
theorem equalVWTs_iff (a b : ValueWitnessTable) :
    equalVWTs a b = true ↔
      (a.initializeBufferWithCopyOfBuffer =
          b.initializeBufferWithCopyOfBuffer ∧
        a.destroy = b.destroy ∧
        a.initializeWithCopy = b.initializeWithCopy ∧
        a.assignWithCopy = b.assignWithCopy ∧
        a.initializeWithTake = b.initializeWithTake ∧
        a.assignWithTake = b.assignWithTake ∧
        a.getEnumTagSinglePayload = b.getEnumTagSinglePayload ∧
        a.storeEnumTagSinglePayload = b.storeEnumTagSinglePayload ∧
        a.size = b.size ∧
        a.stride = b.stride ∧
        a.flags = b.flags ∧
        a.extraInhabitantCount = b.extraInhabitantCount) ∧
      (a.enumWitnesses.isSome ↔ b.enumWitnesses.isSome) ∧
      (∀ enumA enumB, a.enumWitnesses = some enumA →
        b.enumWitnesses = some enumB →
        enumA.getEnumTag = enumB.getEnumTag ∧
        enumA.destructiveProjectEnumData =
          enumB.destructiveProjectEnumData ∧
        enumA.destructiveInjectEnumTag = enumB.destructiveInjectEnumTag) :=
  by
  have hite : ∀ (c : Prop) [Decidable c] (r : Bool),
      (if c then false else r) = (!(decide c) && r) := by
    intro c inst r
    by_cases h : c <;> simp [h]
  have hflags : a.flags.getOpaqueValue = b.flags.getOpaqueValue ↔
      a.flags = b.flags := by
    cases a.flags; cases b.flags
    simp [ValueWitnessFlags.getOpaqueValue]
  rcases haE : a.enumWitnesses with _ | enumA <;>
    rcases hbE : b.enumWitnesses with _ | enumB
  all_goals simp [equalVWTs, haE, hbE, hite, hflags, not_ne_iff]
  all_goals tauto

/-- Witness for C2: the characterization applied at the concrete sample
table, with every clause discharged on concrete values. -/
theorem equalVWTs_iff_witness : equalVWTs sampleVWT sampleVWT = true :=
  (equalVWTs_iff sampleVWT sampleVWT).mpr
    ⟨⟨rfl, rfl, rfl, rfl, rfl, rfl, rfl, rfl, rfl, rfl, rfl, rfl⟩,
      Iff.rfl, fun ea eb h _ => by simp [sampleVWT] at h⟩

/-- C10. A descriptor that is not a value-type descriptor, or a
value-type descriptor that is not generic, makes the harness return
immediately: no allocation, no diagnostic output, no comparison, no
process termination. -/
theorem validate_skips_nonGenericValueType (env : ValidationEnv)
    (h : env.isValueTypeDescriptor = false ∨ env.isGeneric = false) :
    validateExternalGenericMetadataBuilder env = ⟨[], false, false, false⟩ :=
  by
  have hcond : (env.isValueTypeDescriptor && env.isGeneric) = false := by
    rcases h with h | h <;> simp [h]
  simp [validateExternalGenericMetadataBuilder, hcond]

/-- Witness for C10: a non-generic value-type descriptor environment. -/
theorem validate_skips_nonGenericValueType_witness :
    validateExternalGenericMetadataBuilder
        { sampleEnv with isGeneric := false, verbosity := 3 } =
      ⟨[], false, false, false⟩ :=
  validate_skips_nonGenericValueType _ (Or.inr rfl)

/-- C5. When the extra-data-size computation, the metadata allocation,
or the two-phase initialization reports an error, the harness logs the
error (through the gated sink for the first two steps, directly for the
initializer) and returns: no comparison is performed and the process is
not terminated. -/
theorem validate_engine_error_paths (env : ValidationEnv)
    (hv : env.isValueTypeDescriptor = true) (hg : env.isGeneric = true) :
    (∀ e, env.extraDataSize = .error e →
      validateExternalGenericMetadataBuilder env =
        ⟨validationLog env.verbosity false
            ("error getting extra data size: " ++ e),
          false, false, false⟩) ∧
    (∀ n e, env.extraDataSize = .ok n → env.allocation = .error e →
      validateExternalGenericMetadataBuilder env =
        ⟨validationLog env.verbosity false
            ("error allocating metadata: " ++ e),
          false, true, false⟩) ∧
    (∀ n a e, env.extraDataSize = .ok n → env.allocation = .ok a →
      env.initResult = .error e →
      validateExternalGenericMetadataBuilder env =
        ⟨["swift_initializeGenericValueMetadata failed: " ++ e],
          false, true, false⟩) := by
  refine ⟨?_, ?_, ?_⟩
  · intro e hx
    simp [validateExternalGenericMetadataBuilder, hv, hg, hx]
  · intro n e hx ha
    simp [validateExternalGenericMetadataBuilder, hv, hg, hx, ha]
  · intro n a e hx ha hi
    simp [validateExternalGenericMetadataBuilder, hv, hg, hx, ha, hi,
      initializeGenericValueMetadata]

/-- Witness for C5: the initialization-failure path at a concrete
environment returns non-fatally with the unconditional failure line. -/
theorem validate_engine_error_paths_witness :
    validateExternalGenericMetadataBuilder
        { sampleEnv with initResult := .error "missing pattern" } =
      ⟨["swift_initializeGenericValueMetadata failed: missing pattern"],
        false, true, false⟩ :=
  (validate_engine_error_paths
      { sampleEnv with initResult := .error "missing pattern" }
      rfl rfl).2.2 8 512 "missing pattern" rfl rfl rfl

/-- Partial evaluation of the harness on the comparison stage: once the
descriptor is a generic value type and all three engine steps succeed, the
run is decided by the two checks. Shared by the comparison-stage
results. -/
theorem validate_stage (env : ValidationEnv)
    (hv : env.isValueTypeDescriptor = true) (hg : env.isGeneric = true)
    (n a : Nat) (hx : env.extraDataSize = .ok n)
    (ha : env.allocation = .ok a) (hi : env.initResult = .ok ()) :
    validateExternalGenericMetadataBuilder env =
      if equalVWTs env.origVWT env.newVWT &&
          memcmpEqBytes env.mem env.originalAddr a
            (sizeofValueMetadata + n) then
        ⟨validationLog env.verbosity false
            ("Validated generic metadata builder on " ++ env.typeName),
          false, true, true⟩
      else
        ⟨(if equalVWTs env.origVWT env.newVWT then []
            else validationLog env.verbosity true "VWTs do not match") ++
          (if memcmpEqBytes env.mem env.originalAddr a
              (sizeofValueMetadata + n) then []
            else validationLog env.verbosity true "Metadatas do not match") ++
          validationLog env.verbosity true
            "Error! Mismatch between new/old metadata builders!" ++
          validationLog env.verbosity true "Original metadata:" ++
          dumpEmit env.verbosity "original" env.dumpOriginal ++
          validationLog env.verbosity true "New metadata builder:" ++
          dumpEmit env.verbosity "new" env.dumpNew ++
          ["Fatal error: mismatched metadata."],
          true, true, true⟩ := by
  rcases hE : equalVWTs env.origVWT env.newVWT with _ | _ <;>
    rcases hB : memcmpEqBytes env.mem env.originalAddr a
        (sizeofValueMetadata + n) with _ | _ <;>
      simp [validateExternalGenericMetadataBuilder, hv, hg, hx, ha, hi,
        initializeGenericValueMetadata, hE, hB]

/-- The fifth of eight appended segments is an infix of the whole. -/
theorem isInfix_appended8_pos5 {α : Type} (x1 x2 x3 x4 m x6 x7 x8 : List α) :
    List.IsInfix m (x1 ++ x2 ++ x3 ++ x4 ++ m ++ x6 ++ x7 ++ x8) :=
  ⟨x1 ++ x2 ++ x3 ++ x4, x6 ++ x7 ++ x8, by simp [List.append_assoc]⟩

/-- The seventh of eight appended segments is an infix of the whole. -/
theorem isInfix_appended8_pos7 {α : Type} (x1 x2 x3 x4 x5 x6 m x8 : List α) :
    List.IsInfix m (x1 ++ x2 ++ x3 ++ x4 ++ x5 ++ x6 ++ m ++ x8) :=
  ⟨x1 ++ x2 ++ x3 ++ x4 ++ x5 ++ x6, x8, by simp [List.append_assoc]⟩

/-- C1. At the comparison stage for a generic value type: a failure of
the value-operations-table check or of the byte check dumps both metadata
records to the diagnostic stream and terminates the process fatally; when
both checks pass the harness returns non-fatally, emitting only the
(gated) success trace that names the type. -/
theorem validate_comparison_stage (env : ValidationEnv)
    (hv : env.isValueTypeDescriptor = true) (hg : env.isGeneric = true)
    (n a : Nat) (hx : env.extraDataSize = .ok n)
    (ha : env.allocation = .ok a) (hi : env.initResult = .ok ()) :
    ((equalVWTs env.origVWT env.newVWT = false ∨
        memcmpEqBytes env.mem env.originalAddr a
          (sizeofValueMetadata + n) = false) →
      (validateExternalGenericMetadataBuilder env).fatal = true ∧
      List.IsInfix (dumpEmit env.verbosity "original" env.dumpOriginal)
        (validateExternalGenericMetadataBuilder env).output ∧
      List.IsInfix (dumpEmit env.verbosity "new" env.dumpNew)
        (validateExternalGenericMetadataBuilder env).output) ∧
    (equalVWTs env.origVWT env.newVWT = true ∧
        memcmpEqBytes env.mem env.originalAddr a
          (sizeofValueMetadata + n) = true →
      (validateExternalGenericMetadataBuilder env).fatal = false ∧
      (validateExternalGenericMetadataBuilder env).output =
        validationLog env.verbosity false
          ("Validated generic metadata builder on " ++ env.typeName)) := by
  have hstage := validate_stage env hv hg n a hx ha hi
  constructor
  · intro hfail
    have hcond : (equalVWTs env.origVWT env.newVWT &&
        memcmpEqBytes env.mem env.originalAddr a
          (sizeofValueMetadata + n)) = false := by
      rcases hfail with h | h <;> simp [h]
    rw [hstage, hcond]
    simp only [Bool.false_eq_true, if_false]
    refine ⟨by simp, ?_, ?_⟩
    · exact isInfix_appended8_pos5 _ _ _ _ _ _ _ _
    · exact isInfix_appended8_pos7 _ _ _ _ _ _ _ _
  · rintro ⟨hE, hB⟩
    rw [hstage, hE, hB]
    simp

/-- Witness for C1: a concrete matching run returns non-fatally with the
gated success trace (empty at the sample's verbosity 0). -/
theorem validate_comparison_stage_witness :
    (validateExternalGenericMetadataBuilder sampleEnv).fatal = false ∧
    (validateExternalGenericMetadataBuilder sampleEnv).output =
      validationLog sampleEnv.verbosity false
        ("Validated generic metadata builder on " ++ sampleEnv.typeName) :=
  (validate_comparison_stage sampleEnv rfl rfl 8 512 rfl rfl rfl).2
    ⟨by decide, by decide⟩

/-- C9. The byte check of the harness is a comparison of exactly
`sizeof(ValueMetadata) + extraSize` cells starting at each record's
address: it passes iff those cells are pairwise identical, and (when the
table check already passed) the run is non-fatal iff the byte check
passes. -/
theorem validate_byte_comparison (env : ValidationEnv)
    (hv : env.isValueTypeDescriptor = true) (hg : env.isGeneric = true)
    (n a : Nat) (hx : env.extraDataSize = .ok n)
    (ha : env.allocation = .ok a) (hi : env.initResult = .ok ())
    (hvwt : equalVWTs env.origVWT env.newVWT = true) :
    (memcmpEqBytes env.mem env.originalAddr a (sizeofValueMetadata + n) =
        true ↔
      ∀ i, i < sizeofValueMetadata + n →
        env.mem (env.originalAddr + i) = env.mem (a + i)) ∧
    ((validateExternalGenericMetadataBuilder env).fatal = false ↔
      memcmpEqBytes env.mem env.originalAddr a (sizeofValueMetadata + n) =
        true) := by
  constructor
  · simp [memcmpEqBytes, List.all_eq_true, List.mem_range]
  · rw [validate_stage env hv hg n a hx ha hi]
    rcases hB : memcmpEqBytes env.mem env.originalAddr a
        (sizeofValueMetadata + n) with _ | _ <;>
      simp [hvwt, hB]

/-- Witness for C9 at the sample environment: uniform memory passes the
byte check and the run is non-fatal. -/
theorem validate_byte_comparison_witness :
    (memcmpEqBytes sampleEnv.mem sampleEnv.originalAddr 512
        (sizeofValueMetadata + 8) = true ↔
      ∀ i, i < sizeofValueMetadata + 8 →
        sampleEnv.mem (sampleEnv.originalAddr + i) =
          sampleEnv.mem (512 + i)) ∧
    ((validateExternalGenericMetadataBuilder sampleEnv).fatal = false ↔
      memcmpEqBytes sampleEnv.mem sampleEnv.originalAddr 512
        (sizeofValueMetadata + 8) = true) :=
  validate_byte_comparison sampleEnv rfl rfl 8 512 rfl rfl rfl (by decide)

/-- Counterexample to C8 as stated: at verbosity 0, the (non-fatal)
two-phase-initialization failure path still emits its failure line,
because `initializeGenericValueMetadata` prints with a plain `fprintf`
rather than through the gated `validationLog`. -/
theorem validate_verbosity0_initFailure_emits :
    sampleEnv.verbosity = 0 ∧
    (validateExternalGenericMetadataBuilder
        { sampleEnv with initResult := .error "init failed" }).fatal =
      false ∧
    (validateExternalGenericMetadataBuilder
        { sampleEnv with initResult := .error "init failed" }).output =
      ["swift_initializeGenericValueMetadata failed: init failed"] := by
  refine ⟨rfl, ?_, ?_⟩ <;> decide

/-- C8 (amended). With verbosity 0, the harness emits nothing on the
size-computation and allocation error paths and on the all-checks-pass
path; the initialization-failure path, however, emits its failure line
regardless of verbosity; and every fatal (mismatch) run emits diagnostics
regardless of the verbosity setting. -/
theorem validate_verbosity0_diagnostics (env : ValidationEnv)
    (hv : env.isValueTypeDescriptor = true) (hg : env.isGeneric = true)
    (h0 : env.verbosity = 0) :
    (∀ e, env.extraDataSize = .error e →
      (validateExternalGenericMetadataBuilder env).output = []) ∧
    (∀ n e, env.extraDataSize = .ok n → env.allocation = .error e →
      (validateExternalGenericMetadataBuilder env).output = []) ∧
    (∀ n a e, env.extraDataSize = .ok n → env.allocation = .ok a →
      env.initResult = .error e →
      (validateExternalGenericMetadataBuilder env).output =
        ["swift_initializeGenericValueMetadata failed: " ++ e]) ∧
    (∀ n a, env.extraDataSize = .ok n → env.allocation = .ok a →
      env.initResult = .ok () →
      equalVWTs env.origVWT env.newVWT = true →
      memcmpEqBytes env.mem env.originalAddr a (sizeofValueMetadata + n) =
        true →
      (validateExternalGenericMetadataBuilder env).output = []) ∧
    (∀ env2 : ValidationEnv,
      (validateExternalGenericMetadataBuilder env2).fatal = true →
      (validateExternalGenericMetadataBuilder env2).output ≠ []) := by
  refine ⟨?_, ?_, ?_, ?_, ?_⟩
  · intro e hx
    simp [validateExternalGenericMetadataBuilder, hv, hg, hx, h0,
      validationLog]
  · intro n e hx ha
    simp [validateExternalGenericMetadataBuilder, hv, hg, hx, ha, h0,
      validationLog]
  · intro n a e hx ha hi
    simp [validateExternalGenericMetadataBuilder, hv, hg, hx, ha, hi,
      initializeGenericValueMetadata]
  · intro n a hx ha hi hE hB
    rw [validate_stage env hv hg n a hx ha hi, hE, hB]
    simp [validationLog, h0]
  · intro env2 hf
    by_cases hc : (env2.isValueTypeDescriptor && env2.isGeneric) = true
    · rcases hx : env2.extraDataSize with e | n
      · simp [validateExternalGenericMetadataBuilder, hc, hx] at hf
      · rcases ha : env2.allocation with e | a
        · simp [validateExternalGenericMetadataBuilder, hc, hx, ha] at hf
        · rcases hi : env2.initResult with e | u
          · simp [validateExternalGenericMetadataBuilder, hc, hx, ha, hi,
              initializeGenericValueMetadata] at hf
          · have hv2 : env2.isValueTypeDescriptor = true := by
              rcases Bool.and_eq_true _ _ |>.mp hc with ⟨h1, h2⟩
              exact h1
            have hg2 : env2.isGeneric = true := by
              rcases Bool.and_eq_true _ _ |>.mp hc with ⟨h1, h2⟩
              exact h2
            have hstage := validate_stage env2 hv2 hg2 n a hx ha hi
            rcases hcmp : (equalVWTs env2.origVWT env2.newVWT &&
                memcmpEqBytes env2.mem env2.originalAddr a
                  (sizeofValueMetadata + n)) with _ | _
            · rw [hstage, hcmp]
              simp only [Bool.false_eq_true, if_false]
              intro hemp
              simp [List.append_eq_nil] at hemp
            · rw [hstage, hcmp] at hf
              simp at hf
    · simp [validateExternalGenericMetadataBuilder, hc] at hf

/-- Witness for the amended C8: at verbosity 0 the size-computation error
path of a concrete run emits nothing. -/
theorem validate_verbosity0_diagnostics_witness :
    (validateExternalGenericMetadataBuilder
        { sampleEnv with extraDataSize := .error "no size" }).output = [] :=
  (validate_verbosity0_diagnostics
      { sampleEnv with extraDataSize := .error "no size" }
      rfl rfl rfl).1 "no size" rfl

/-- C6. The lookup `getSymbolInfo` is total: without a lookup facility, or when
`dladdr` resolves nothing, every field is the `<unknown>` / 0 sentinel;
on success, a missing symbol-name or library-name component is
individually replaced by `<unknown>` (and the sentinel has no slash to
trim). -/
theorem getSymbolInfo_total :
    (∀ r a, getSymbolInfo false r a = ⟨"<unknown>", "<unknown>", 0⟩) ∧
    (∀ a, getSymbolInfo true none a = ⟨"<unknown>", "<unknown>", 0⟩) ∧
    (∀ info a,
      (getSymbolInfo true (some info) a).symbolName =
        info.dliSname.getD "<unknown>" ∧
      (getSymbolInfo true (some info) a).libraryName =
        libraryBasename (info.dliFname.getD "<unknown>")) ∧
    libraryBasename "<unknown>" = "<unknown>" := by
  refine ⟨fun r a => rfl, fun a => rfl, fun info a => ⟨rfl, rfl⟩, ?_⟩
  decide

/-- C7. The lookup `getSymbolPointer` errors when the platform lookup returns
null and when no lookup facility exists, and a successful result wraps the
non-null looked-up address — never a null buffer. -/
theorem getSymbolPointer_errors (name : String) (p : Nat) :
    getSymbolPointer true name 0 =
      .error ("dlsym could not find symbol " ++ name) ∧
    getSymbolPointer false name p =
      .error "getSymbolPointer is not implemented on this platform" ∧
    (∀ u b, getSymbolPointer u name p = .ok b →
      b.ptr = p ∧ b.isNull = false) := by
  refine ⟨rfl, rfl, ?_⟩
  intro u b h
  rcases u with _ | _
  · exact absurd h (by simp [getSymbolPointer])
  · by_cases hp : p = 0
    · rw [hp] at h
      exact absurd h (by simp [getSymbolPointer])
    · simp only [getSymbolPointer, if_pos rfl, if_neg hp] at h
      cases h
      exact ⟨rfl, by simp [Buffer.isNull, hp]⟩

/-- Witness for C7: a successful lookup at address 4096 yields the
non-null buffer at that address. -/
theorem getSymbolPointer_errors_witness :
    Buffer.ptr ⟨4096⟩ = 4096 ∧ Buffer.isNull ⟨4096⟩ = false :=
  (getSymbolPointer_errors "swift_retain" 4096).2.2 true ⟨4096⟩ rfl

end GenericMetadataBuilderSpec
